import Mathlib

/-!
# Verification of the bank-ads targeting engine

A shallow embedding of the targeting/serving pipeline of the `bankadsapi`
repository, together with theorems settling the specification claims.

Conventions of the embedding:
* JavaScript numbers used for money, scores and priorities are modelled as
  rationals (`ℚ`); timestamps (`Date.now()`, `Date#getTime()` values in
  milliseconds) are modelled as integers (`Int`).
* A JavaScript object-literal field that is *absent* from the source object
  is modelled as `Option.none`: reading it yields `undefined`, and reading a
  property *of* that `undefined` value throws a `TypeError`, which we model
  with `Except.error`.
* Fallible operations return `Except String α`; a function that "falls off
  the end" without a `return` statement yields `Option.none` (`undefined`).
-/

namespace BankAds

/-! ## `src/config/targeting-config.ts`: the `TARGETING_CONFIG` object -/

structure FrequencyCapConfig where
  maxImpressionsPerDay : ℕ
  cooldownHours : ℕ
deriving Repr, DecidableEq

structure ScoreWeights where
  priority : ℚ
  ctr : ℚ
  recency : ℚ
  freshness : ℚ
deriving Repr, DecidableEq

structure CtrConfig where
  minimumImpressions : ℕ
  defaultCtr : ℚ
deriving Repr, DecidableEq

/-- An entry of `TARGETING_CONFIG.timeSlots`.  The source field `end` is a
reserved word in Lean, so it is called `stop` here. -/
structure TimeSlotRange where
  start : ℕ
  stop : ℕ
deriving Repr, DecidableEq

structure CacheConfig where
  defaultTtl : ℕ
  highAvailabilityTtl : ℕ
  lowAvailabilityTtl : ℕ
  adThresholdForLowAvailability : ℕ
  userProfileTtl : ℕ
deriving Repr, DecidableEq

structure RateLimitConfig where
  windowSeconds : ℕ
  maxRequests : ℕ
deriving Repr, DecidableEq

structure UserProfileConfig where
  ttl : ℕ
deriving Repr, DecidableEq

/-- Shape of the `segmentThresholds` config entry that `getSegment` tries to
read.  No such entry exists in the `TARGETING_CONFIG` object literal of the
source. -/
structure SegmentThresholds where
  low : ℚ
  mass : ℚ
  affluent : ℚ
deriving Repr, DecidableEq

/-- Shape of the `score` config entry that `scoreAds` tries to read
(`TARGETING_CONFIG.score.recencyMaxAgeDays`).  No such entry exists in the
`TARGETING_CONFIG` object literal of the source. -/
structure ScoreConfig where
  recencyMaxAgeDays : ℕ
deriving Repr, DecidableEq

/-- The whole config object.  `segmentThresholds` and `score` are `Option`s
because the source object literal does not define them: a JavaScript read of
such a property yields `undefined`. -/
structure TargetingConfig where
  frequencyCap : FrequencyCapConfig
  scoreWeights : ScoreWeights
  ctr : CtrConfig
  timeSlots : List (String × TimeSlotRange)
  cache : CacheConfig
  rateLimit : RateLimitConfig
  userProfile : UserProfileConfig
  segmentThresholds : Option SegmentThresholds
  score : Option ScoreConfig
deriving Repr, DecidableEq

/-- `TARGETING_CONFIG` exactly as written in `targeting-config.ts`.
`timeSlots` keeps the object-literal insertion order, which is the order
`Object.entries` iterates in `getCurrentTimeSlot`. -/
def TARGETING_CONFIG : TargetingConfig where
  frequencyCap := { maxImpressionsPerDay := 3, cooldownHours := 2 }
  scoreWeights := { priority := 35/100, ctr := 25/100, recency := 20/100, freshness := 20/100 }
  ctr := { minimumImpressions := 10, defaultCtr := 2/100 }
  timeSlots :=
    [ ("morning", { start := 6, stop := 12 })
    , ("afternoon", { start := 12, stop := 17 })
    , ("evening", { start := 17, stop := 21 })
    , ("night", { start := 21, stop := 6 }) ]
  cache :=
    { defaultTtl := 60, highAvailabilityTtl := 30, lowAvailabilityTtl := 120
    , adThresholdForLowAvailability := 3, userProfileTtl := 3600 }
  rateLimit := { windowSeconds := 60, maxRequests := 100 }
  userProfile := { ttl := 86400 }
  segmentThresholds := none
  score := none

/-! ## `getSegment` (`targeting-config.ts`, lines 57–61)

```ts
export const getSegment = (balance: number): string => {
  if (balance < TARGETING_CONFIG.segmentThresholds.low) return "low";
  if (balance < TARGETING_CONFIG.segmentThresholds.mass) return "mass";
  if (balance < TARGETING_CONFIG.segmentThresholds.affluent) return "affluent";
};
```

Two defects are visible in the source: the config object has no
`segmentThresholds` entry (so every call throws a `TypeError` reading `.low`
of `undefined`), and even with thresholds present the function has no final
`return "hnw"` — it falls off the end, producing `undefined`. -/

/-- The comparison cascade of `getSegment`, parameterised by the thresholds
object it dereferences.  The missing final branch of the source is the
`none` case: the function body ends without a `return`. -/
def getSegmentWith (t : SegmentThresholds) (balance : ℚ) : Option String :=
  if balance < t.low then some "low"
  else if balance < t.mass then some "mass"
  else if balance < t.affluent then some "affluent"
  else none

/-- `getSegment` as it stands in the source: it first dereferences
`TARGETING_CONFIG.segmentThresholds`, which is absent (`undefined`), so the
property read `.low` throws. -/
def getSegment (balance : ℚ) : Except String (Option String) :=
  match TARGETING_CONFIG.segmentThresholds with
  | none => .error "TypeError: Cannot read properties of undefined (reading low)"
  | some t => .ok (getSegmentWith t balance)

/-- Modelled from the spec: the segment thresholds 50,000 / 200,000 /
1,000,000 that the configuration is supposed to contain but does not. -/
def specSegmentThresholds : SegmentThresholds :=
  { low := 50000, mass := 200000, affluent := 1000000 }

/-- Modelled from the spec: the intended closed four-way segment mapping
(`balance < 50,000 → low`; `< 200,000 → mass`; `< 1,000,000 → affluent`;
else `hnw`). -/
def getSegmentSpec (balance : ℚ) : String :=
  if balance < 50000 then "low"
  else if balance < 200000 then "mass"
  else if balance < 1000000 then "affluent"
  else "hnw"

/-! ## `getCurrentTimeSlot` (`targeting-config.ts`, lines 64–75)

The source reads the wall-clock hour (`new Date().getHours()`) and walks
`Object.entries(TARGETING_CONFIG.timeSlots)` in insertion order; a range with
`start < end` matches `start ≤ hour < end`, otherwise the range wraps
midnight and matches `hour ≥ start || hour < end`.  The wall-clock hour is
injected as an explicit parameter. -/

def findTimeSlot (hour : ℕ) : List (String × TimeSlotRange) → String
  | [] => "morning"
  | (slot, range) :: rest =>
    if range.start < range.stop then
      if range.start ≤ hour ∧ hour < range.stop then slot else findTimeSlot hour rest
    else
      if range.start ≤ hour ∨ hour < range.stop then slot else findTimeSlot hour rest

def getCurrentTimeSlot (hour : ℕ) : String :=
  findTimeSlot hour TARGETING_CONFIG.timeSlots

/-- The time-slot mapping as the claim words it: morning on [6,12),
afternoon on [12,17), evening on [17,21), night on [21,24)∪[0,6). -/
def timeSlotSpec (hour : ℕ) : String :=
  if 6 ≤ hour ∧ hour < 12 then "morning"
  else if 12 ≤ hour ∧ hour < 17 then "afternoon"
  else if 17 ≤ hour ∧ hour < 21 then "evening"
  else "night"

/-! ## `src/modules/ads/targeting-engine.ts`: ad documents and the scorer -/

/-- The `AdDocument` interface.  `_id` is an ObjectId in the source and only
ever used via `toString()`, so it is a `String` here; dates are their
`getTime()` millisecond values. -/
structure AdDocument where
  _id : String
  title : String
  imageUrl : String
  videoUrl : Option String
  cta : Option String
  segments : List String
  channels : List String
  startDate : Int
  endDate : Int
  status : String
  priority : ℚ
  impressions : ℕ
  clicks : ℕ
  timeSlots : Option (List String)
deriving Repr, DecidableEq

/-- JavaScript `x || d` on numbers: `0` is falsy. -/
def jsOr (x d : ℚ) : ℚ := if x = 0 then d else x

/-- `calculateCtr` from `targeting-engine.ts`: default CTR below the minimum
impression threshold, otherwise `clicks / impressions`. -/
def calculateCtr (impressions clicks : ℕ) : ℚ :=
  if impressions < TARGETING_CONFIG.ctr.minimumImpressions then
    TARGETING_CONFIG.ctr.defaultCtr
  else (clicks : ℚ) / (impressions : ℚ)

structure ScoreBreakdown where
  priorityScore : ℚ
  ctrScore : ℚ
  recencyScore : ℚ
  freshnessScore : ℚ
deriving Repr, DecidableEq

structure ScoredAd where
  ad : AdDocument
  score : ℚ
  breakdown : ScoreBreakdown
deriving Repr, DecidableEq

/-- `Math.max(...xs)` over a non-empty spread (the empty case, `-Infinity`,
is never reached in the source because `scoreAds` returns early on `[]`). -/
def mathMaxList : List ℚ → ℚ
  | [] => 0
  | x :: xs => xs.foldl max x

/-- The body of `scoreAds` once the per-ad read of
`TARGETING_CONFIG.score.recencyMaxAgeDays` is given a value `maxAgeDays`
(the config entry the source forgot; the spec fixes 30 days). -/
def scoreAdsWith (maxAgeDays : ℕ) (now : Int) (ads : List AdDocument) : List ScoredAd :=
  let weights := TARGETING_CONFIG.scoreWeights
  -- const maxPriority = Math.max(...ads.map((a) => a.priority || 1));
  let maxPriority := mathMaxList (ads.map (fun a => jsOr a.priority 1))
  -- const maxImpressions = Math.max(...ads.map((a) => a.impressions || 0), 1);
  let maxImpressions := mathMaxList (ads.map (fun a => (a.impressions : ℚ)) ++ [1])
  ads.map (fun ad =>
    let priorityScore := jsOr ad.priority 1 / maxPriority
    let rawCtr := calculateCtr ad.impressions ad.clicks
    let ctrScore := min (rawCtr / (1/10)) 1
    let ageMs : ℚ := ((now - ad.startDate : Int) : ℚ)
    let maxAge : ℚ := (maxAgeDays : ℚ) * 86400 * 1000
    let recencyScore := max 0 (1 - ageMs / maxAge)
    let freshnessScore := 1 - (ad.impressions : ℚ) / maxImpressions
    let score :=
      weights.priority * priorityScore +
      weights.ctr * ctrScore +
      weights.recency * recencyScore +
      weights.freshness * freshnessScore
    { ad := ad, score := score
    , breakdown :=
      { priorityScore := priorityScore, ctrScore := ctrScore
      , recencyScore := recencyScore, freshnessScore := freshnessScore } })

/-- `scoreAds` as it stands in the source: the empty list returns `[]`
before anything is dereferenced, but scoring any ad reads
`TARGETING_CONFIG.score.recencyMaxAgeDays`, and `TARGETING_CONFIG.score` is
absent from the config object (`undefined`), so the property read throws. -/
def scoreAds (now : Int) (ads : List AdDocument) : Except String (List ScoredAd) :=
  match ads with
  | [] => .ok []
  | _ :: _ =>
    match TARGETING_CONFIG.score with
    | none =>
        .error "TypeError: Cannot read properties of undefined (reading recencyMaxAgeDays)"
    | some sc => .ok (scoreAdsWith sc.recencyMaxAgeDays now ads)

/-! ## `serveAds` input validation (`ads-controllers.ts`, lines 25–38)

The request body is JSON, so `balance` can be any JavaScript value.  The
code rejects with 400 iff `typeof balance !== "number" || balance < 0`.
JavaScript numbers include the non-finite values `NaN`, `Infinity` and
`-Infinity`; `typeof` is `"number"` for all of them, and every `<`
comparison involving `NaN` is false. -/

/-- A JavaScript number: a finite double (abstracted as a rational) or one
of the non-finite values. -/
inductive JSNum where
  | finite (q : ℚ)
  | nan
  | posInf
  | negInf
deriving Repr, DecidableEq

/-- The JavaScript comparison `n < 0`: false for `NaN`, false for
`Infinity`, true for `-Infinity`. -/
def JSNum.ltZero : JSNum → Bool
  | .finite q => decide (q < 0)
  | .nan => false
  | .posInf => false
  | .negInf => true

/-- A JSON-decoded JavaScript value as far as the validation cares. -/
inductive JSValue where
  | num (n : JSNum)
  | str (s : String)
  | boolean (b : Bool)
  | null
  | undefined
deriving Repr, DecidableEq

/-- The balance check of `serveAds`: rejected (HTTP 400) iff
`typeof balance !== "number" || balance < 0`.  The `||` short-circuits, so
`balance < 0` is evaluated only on numbers. -/
def balanceRejected : JSValue → Bool
  | .num n => n.ltZero
  | _ => true

/-! ## Cache and profile keys (`ads-controllers.ts` lines 34/45/64/139, and
`targeting-engine.ts` line 158)

`serveAds` sanitises the customer id with `customerId.replace(/[:\s]/g, "_")`
and uses the sanitised id both in the cache key `ad:{segment}:{channel}:{id}`
and as the argument of `getUserProfile` / `recordImpression`, which key the
profile as `userprofile:{id}`. -/

/-- Code points matched by the JavaScript regexp class `\s`. -/
def jsWhitespaceCodes : List ℕ :=
  [9, 10, 11, 12, 13, 32, 160, 5760, 8192, 8193, 8194, 8195, 8196, 8197,
   8198, 8199, 8200, 8201, 8202, 8232, 8233, 8239, 8287, 12288, 65279]

def isJsWhitespace (c : Char) : Bool := jsWhitespaceCodes.contains c.toNat

/-- `customerId.replace(/[:\s]/g, "_")`: every colon or whitespace character
becomes an underscore. -/
def sanitizeCustomerId (s : String) : String :=
  String.mk (s.data.map (fun c => if c == ':' || isJsWhitespace c then '_' else c))

/-- `getUserProfileKey` from `targeting-engine.ts`. -/
def getUserProfileKey (customerId : String) : String := "userprofile:" ++ customerId

/-- The personalised cache key built by `serveAds`:
`ad:${segment}:${channel}:${safeCustomerId}`. -/
def serveCacheKey (segment channel customerId : String) : String :=
  "ad:" ++ segment ++ ":" ++ channel ++ ":" ++ sanitizeCustomerId customerId

/-- The user-profile key `serveAds` reads and writes: `getUserProfile` and
`recordImpression` are called with the sanitised customer id. -/
def serveProfileKey (customerId : String) : String :=
  getUserProfileKey (sanitizeCustomerId customerId)

/-! ## User profiles (`targeting-engine.ts`, lines 112–215)

The KV interaction is made explicit: the stored value (if any) is passed in,
and the write comes out as the list of pipeline operations.  JSON
serialisation is abstracted away — the `set` operation carries the profile
value itself. -/

structure ImpressionRecord where
  adId : String
  timestamp : Int
deriving Repr, DecidableEq

structure UserProfile where
  customerId : String
  impressions : List ImpressionRecord
  lastUpdated : Int
deriving Repr, DecidableEq

/-- `getUserProfile`: the parsed stored profile, or a fresh empty profile on
a miss (and likewise on any KV read error). -/
def getUserProfile (stored : Option UserProfile) (customerId : String) (now : Int) :
    UserProfile :=
  match stored with
  | some p => p
  | none => { customerId := customerId, impressions := [], lastUpdated := now }

/-- One operation of the Redis pipeline issued by `recordImpression`. -/
inductive KVOp where
  | set (key : String) (value : UserProfile)
  | expire (key : String) (seconds : ℕ)
deriving Repr, DecidableEq

/-- The read-modify-write core of `recordImpression`: push `{adId, now}`,
then keep only impressions with `timestamp > now − 24h`, then set
`lastUpdated = now`. -/
def recordImpressionProfile (profile : UserProfile) (adId : String) (now : Int) :
    UserProfile :=
  let pushed := profile.impressions ++ [{ adId := adId, timestamp := now }]
  let oneDayAgo := now - 86400 * 1000
  { customerId := profile.customerId
  , impressions := pushed.filter (fun imp => decide (oneDayAgo < imp.timestamp))
  , lastUpdated := now }

/-- `recordImpression(customerId, adId)`.  Result: the stored profile after
the call, the pipeline operations issued, and whether the promise resolved
normally.  `kvError = true` models any KV failure inside the `try` block:
the `catch` logs and returns, the store is untouched and nothing is
pipelined.  Otherwise the new profile is persisted via one pipeline of
`set` followed by `expire` with `TARGETING_CONFIG.userProfile.ttl`. -/
def recordImpression (kvError : Bool) (stored : Option UserProfile)
    (customerId adId : String) (now : Int) :
    Option UserProfile × List KVOp × Bool :=
  if kvError then (stored, [], true)
  else
    let profile := getUserProfile stored customerId now
    let p' := recordImpressionProfile profile adId now
    let key := getUserProfileKey customerId
    (some p', [KVOp.set key p', KVOp.expire key TARGETING_CONFIG.userProfile.ttl], true)

/-! ## Frequency-cap filter (`targeting-engine.ts`, lines 240–278) -/

/-- The per-ad impression history the filter computes:
`profile.impressions.filter(imp => imp.adId === adId && imp.timestamp > oneDayAgo)`. -/
def freqCapTodayImpressions (now : Int) (profile : UserProfile) (adId : String) :
    List ImpressionRecord :=
  let oneDayAgo := now - 86400 * 1000
  profile.impressions.filter
    (fun imp => imp.adId == adId && decide (oneDayAgo < imp.timestamp))

/-- The filter callback of `filterByFrequencyCap` (exclusion test): the ad
is dropped when its 24-hour history reaches `maxImpressionsPerDay`, or when
`lastShown` — the history's maximum timestamp, folded with initial value 0 —
is positive and within the cooldown. -/
def freqCapExcludes (now : Int) (profile : UserProfile) (ad : AdDocument) : Bool :=
  let todayImpressions := freqCapTodayImpressions now profile ad._id
  if TARGETING_CONFIG.frequencyCap.maxImpressionsPerDay ≤ todayImpressions.length then
    true
  else
    let cooldownMs : Int := (TARGETING_CONFIG.frequencyCap.cooldownHours : Int) * 3600 * 1000
    let lastShown : Int := todayImpressions.foldl (fun m imp => max m imp.timestamp) 0
    decide (0 < lastShown) && decide (now - lastShown < cooldownMs)

/-- JavaScript `Math.round`: round half towards `+∞`. -/
def jsRound (q : ℚ) : Int := ⌊q + 1/2⌋

/-- The diagnostic string pushed for an excluded ad. -/
def freqCapDiagnostic (now : Int) (profile : UserProfile) (ad : AdDocument) : String :=
  let todayImpressions := freqCapTodayImpressions now profile ad._id
  if TARGETING_CONFIG.frequencyCap.maxImpressionsPerDay ≤ todayImpressions.length then
    ad._id ++ ":daily_cap(" ++ toString todayImpressions.length ++ "/" ++
      toString TARGETING_CONFIG.frequencyCap.maxImpressionsPerDay ++ ")"
  else
    let lastShown : Int := todayImpressions.foldl (fun m imp => max m imp.timestamp) 0
    let minutesAgo := jsRound (((now - lastShown : Int) : ℚ) / 60000)
    ad._id ++ ":cooldown(" ++ toString minutesAgo ++ "min_ago)"

/-- `filterByFrequencyCap`: the eligible ads (filter pass) and the
diagnostics for the excluded ones, in input order. -/
def filterByFrequencyCap (now : Int) (ads : List AdDocument) (profile : UserProfile) :
    List AdDocument × List String :=
  (ads.filter (fun ad => !freqCapExcludes now profile ad),
   (ads.filter (fun ad => freqCapExcludes now profile ad)).map
     (freqCapDiagnostic now profile))

/-- The claim's `history(a)`: the impressions of the ad within the last
24 hours. -/
def specFreqHistory (now : Int) (profile : UserProfile) (adId : String) :
    List ImpressionRecord :=
  profile.impressions.filter
    (fun e => e.adId == adId && decide (now - 86400 * 1000 < e.timestamp))

/-- The claim's exclusion condition, following the spec's words: at least
`maxPerDay = 3` impressions of the ad within the last 24 hours, or the most
recent such impression younger than `cooldown = 2 h`.  "The most recent
impression is younger than 2 h" is rendered as "some impression in the
window is younger than 2 h"; the two are equivalent because the most recent
impression is the maximum of the window. -/
def specFreqExcluded (now : Int) (profile : UserProfile) (adId : String) : Prop :=
  3 ≤ (specFreqHistory now profile adId).length ∨
    ∃ e ∈ specFreqHistory now profile adId, now - e.timestamp < 2 * 3600 * 1000

/-! ## Rate limiter (`rate-limiter.ts`) and tiers (`apikey-model.ts`)

The middleware builds **one** bucket key from the client IP and the request
path — `` `ratelimit:${ip}:${c.req.path}` `` — and runs one pipeline against
it: `zremrangebyscore(key, 0, windowStart)`, `zadd(key, now, member)`,
`zcard(key)`, `expire(key, windowSeconds)`, with `windowSeconds = 60` and
`maxRequests = 100` destructured from `TARGETING_CONFIG.rateLimit`.  The
member string is `` `${now}:${random-suffix}` ``; the caller of the model
supplies it.  Nothing in the middleware reads an API key or a tier. -/

/-- `RATE_LIMIT_TIERS` from `apikey-model.ts`.  Defined there — and never
imported by the rate limiter. -/
def RATE_LIMIT_TIERS : List (String × RateLimitConfig) :=
  [ ("standard", { windowSeconds := 60, maxRequests := 500 })
  , ("premium", { windowSeconds := 60, maxRequests := 1000 })
  , ("enterprise", { windowSeconds := 60, maxRequests := 5000 }) ]

/-- The bucket key the middleware builds: `` `ratelimit:${ip}:${path}` ``. -/
def rateLimitKey (ip path : String) : String :=
  "ratelimit:" ++ ip ++ ":" ++ path

/-- All bucket keys the middleware consults for one request.  The `apiKey`
argument carries whatever API key the request presented; the source never
reads it, so the result is the single per-IP key. -/
def rateLimiterBucketKeys (ip path : String) (_apiKey : Option String) : List String :=
  [rateLimitKey ip path]

/-- A Redis sorted set: members with scores, in insertion order. -/
abbrev Bucket := List (Int × String)

/-- `ZREMRANGEBYSCORE key lo hi`: drop members whose score lies in `[lo, hi]`. -/
def zremrangebyscore (b : Bucket) (lo hi : Int) : Bucket :=
  b.filter (fun e => !(decide (lo ≤ e.1) && decide (e.1 ≤ hi)))

/-- `ZADD key score member`: update the score if the member exists,
otherwise append the member. -/
def zadd (b : Bucket) (score : Int) (member : String) : Bucket :=
  if b.any (fun e => e.2 == member) then
    b.map (fun e => if e.2 == member then (score, member) else e)
  else b ++ [(score, member)]

/-- `ZCARD key`. -/
def zcard (b : Bucket) : ℕ := b.length

/-- What the middleware does with one request: whether `next()` ran, the
HTTP status it returned itself (429 on denial, none otherwise), and the
`Retry-After` / `X-RateLimit-Limit` / `X-RateLimit-Remaining` headers. -/
structure RateLimitDecision where
  admitted : Bool
  status : Option ℕ
  retryAfter : Option ℕ
  limit : ℕ
  remaining : Int
deriving Repr, DecidableEq

/-- One pass of the middleware over its bucket, for window/limit parameters
`(windowSeconds, maxRequests)` (the source destructures them from
`TARGETING_CONFIG.rateLimit`): prune scores in `[0, now − windowSeconds·1000]`,
add the fresh member at score `now`, read the cardinality, deny iff
`requestCount > maxRequests`. -/
def rateLimiterStep (windowSeconds maxRequests : ℕ) (b : Bucket) (now : Int)
    (member : String) : Bucket × RateLimitDecision :=
  let windowStart := now - (windowSeconds : Int) * 1000
  let b1 := zremrangebyscore b 0 windowStart
  let b2 := zadd b1 now member
  let requestCount := zcard b2
  if maxRequests < requestCount then
    (b2, { admitted := false, status := some 429, retryAfter := some windowSeconds
         , limit := maxRequests, remaining := 0 })
  else
    (b2, { admitted := true, status := none, retryAfter := none
         , limit := maxRequests, remaining := (maxRequests : Int) - (requestCount : Int) })

/-- The middleware with the config constants plugged in
(`const { windowSeconds, maxRequests } = TARGETING_CONFIG.rateLimit`). -/
def rateLimiter (b : Bucket) (now : Int) (member : String) :
    Bucket × RateLimitDecision :=
  rateLimiterStep TARGETING_CONFIG.rateLimit.windowSeconds
    TARGETING_CONFIG.rateLimit.maxRequests b now member

/-- The decision the middleware takes when the post-insert cardinality is
`count`: over 100 is a 429 with `Retry-After 60` and zero remaining,
otherwise admission with `remaining = 100 − count`. -/
def rateLimitDecisionAt (count : ℕ) : RateLimitDecision :=
  if 100 < count then
    { admitted := false, status := some 429, retryAfter := some 60
    , limit := 100, remaining := 0 }
  else
    { admitted := true, status := none, retryAfter := none
    , limit := 100, remaining := (100 : Int) - (count : Int) }

/-- Run the middleware over a sequence of `(timestamp, member)` requests
against one bucket, starting empty; returns the final bucket and the
decisions in order. -/
def rateLimiterRun (reqs : List (Int × String)) : Bucket × List RateLimitDecision :=
  reqs.foldl
    (fun acc r =>
      let s := rateLimiter acc.1 r.1 r.2
      (s.1, acc.2 ++ [s.2]))
    ([], [])

/-! ## The ranking step of `serveAds` (`ads-controllers.ts`, line 117)

```ts
scored.sort((a, b) => b.score - a.score);
const winner = scored[0];
```

The comparator looks at the score only.  `Array.prototype.sort` is stable
(ECMAScript 2019 and later), and a stable sort under the total transitive
"may precede" relation `cmp(a,b) ≤ 0 ⟺ b.score ≤ a.score` produces exactly
the insertion sort by that relation. -/

/-- The "a may precede b" relation of the comparator
`(a, b) => b.score - a.score`. -/
def scoredGE (a b : ScoredAd) : Prop := b.score ≤ a.score

instance : DecidableRel scoredGE := fun a b =>
  inferInstanceAs (Decidable (b.score ≤ a.score))

instance : IsTotal ScoredAd scoredGE := ⟨fun a b => le_total b.score a.score⟩

instance : IsTrans ScoredAd scoredGE := ⟨fun _ _ _ hab hbc => le_trans hbc hab⟩

/-- `scored.sort((a, b) => b.score - a.score)` as a stable sort. -/
def sortScored (l : List ScoredAd) : List ScoredAd :=
  l.insertionSort scoredGE

/-- First of two ads engineered to score identically: priority 1,
100 impressions, 7 clicks, campaign starting at `now`. -/
def adTieA : AdDocument :=
  { _id := "A", title := "Tie A", imageUrl := "https://cdn.site/a.jpg"
  , videoUrl := none, cta := none
  , segments := ["mass"], channels := ["ATM"]
  , startDate := 1700000000000, endDate := 1800000000000
  , status := "active", priority := 1, impressions := 100, clicks := 7
  , timeSlots := none }

/-- Second tie ad: same as `adTieA` but priority 2 and no clicks; both ads
come out at composite score 11/20. -/
def adTieB : AdDocument := { adTieA with _id := "B", priority := 2, clicks := 0 }

/-- A concrete well-formed ad used as the failing input for the scorer. -/
def adOne : AdDocument :=
  { _id := "ad1", title := "Premium Loan Offer", imageUrl := "https://cdn.site/ad.jpg"
  , videoUrl := none, cta := none
  , segments := ["mass"], channels := ["ATM"]
  , startDate := 1700000000000, endDate := 1800000000000
  , status := "active", priority := 5, impressions := 0, clicks := 0
  , timeSlots := none }

end BankAds

namespace BankAds

/-- C1: the spec's four-way closed segment mapping is the intent, but the code
is broken twice over: `getSegment` dereferences the missing config entry
`TARGETING_CONFIG.segmentThresholds` (a `TypeError` on every call, witnessed
here at balance 1,000,000), and even with the spec's thresholds supplied the
comparison cascade falls off the end for `balance = 1,000,000`, yielding
`undefined` where the claim (and the spec mapping) requires `"hnw"`. -/
theorem getSegment_code_bug :
    getSegment 1000000 =
      .error "TypeError: Cannot read properties of undefined (reading low)" ∧
    getSegmentWith specSegmentThresholds 1000000 = none ∧
    getSegmentSpec 1000000 = "hnw" := by
  refine ⟨rfl, ?_, ?_⟩ <;> decide

/-- C2: the recency/weighted-sum formulas are the intent, but `scoreAds` is
not total on non-empty inputs: scoring any ad reads
`TARGETING_CONFIG.score.recencyMaxAgeDays` and the config object has no
`score` entry, so the call throws (witnessed on the one-ad list `[adOne]`).
With the spec's 30-day horizon supplied, the source formulas do produce the
claimed components: `adOne` (priority 5, 0 impressions, started at `now`)
gets recency 1 and composite 0.35·1 + 0.25·0.2 + 0.20·1 + 0.20·1 = 0.8. -/
theorem scoreAds_code_bug :
    scoreAds 1700000000000 [adOne] =
      .error "TypeError: Cannot read properties of undefined (reading recencyMaxAgeDays)" ∧
    (scoreAdsWith 30 1700000000000 [adOne]).map (fun s => s.breakdown.recencyScore) = [1] ∧
    (scoreAdsWith 30 1700000000000 [adOne]).map (fun s => s.score) = [4/5] := by
  refine ⟨rfl, ?_, ?_⟩ <;>
    · simp only [scoreAdsWith, adOne, TARGETING_CONFIG, jsOr, mathMaxList, calculateCtr,
        List.map, List.foldl, List.cons_append, List.nil_append]
      norm_num [min_def]

/-- C8: on every wall-clock hour 0–23 the derived time slot agrees with the
claimed mapping — morning on [6,12), afternoon on [12,17), evening on
[17,21), night on [21,24)∪[0,6) — so the derivation is total over 0–23 and
in particular hour 12 is afternoon, hour 21 is night, hour 6 is morning. -/
theorem getCurrentTimeSlot_matches_spec :
    ∀ hour, hour < 24 → getCurrentTimeSlot hour = timeSlotSpec hour := by
  decide

/-- C5 counterexample: the claim says a request whose balance is `NaN` or
`Infinity` is rejected with 400, but `typeof NaN === "number"` and
`NaN < 0` is false, so the validation in `serveAds` admits both. -/
theorem balanceRejected_counterexample :
    balanceRejected (.num .nan) = false ∧ balanceRejected (.num .posInf) = false := by
  exact ⟨rfl, rfl⟩

/-- C5 amended: `serveAds` rejects a balance with 400 iff it is not a number
or is less than zero under JavaScript comparison; equivalently, the values
that pass are exactly the finite numbers `≥ 0` together with `NaN` and
`Infinity` (which the claim wrongly said are rejected). `-Infinity`, and any
missing or non-numeric balance, are rejected. -/
theorem balanceRejected_amended (v : JSValue) :
    balanceRejected v = false ↔
      (∃ q, v = .num (.finite q) ∧ 0 ≤ q) ∨ v = .num .nan ∨ v = .num .posInf := by
  cases v with
  | num n =>
    cases n with
    | finite q => simp [balanceRejected, JSNum.ltZero, not_lt]
    | nan => simp [balanceRejected, JSNum.ltZero]
    | posInf => simp [balanceRejected, JSNum.ltZero]
    | negInf => simp [balanceRejected, JSNum.ltZero]
  | str s => simp [balanceRejected]
  | boolean b => simp [balanceRejected]
  | null => simp [balanceRejected]
  | undefined => simp [balanceRejected]

/-- C10: two customer ids whose sanitised forms coincide (the sanitiser maps
every colon and whitespace character to an underscore) share both the
user-profile key and the personalised cache key in `serveAds`, hence one
frequency-cap history and one cached response. -/
theorem sanitized_key_collision (c1 c2 segment channel : String)
    (_hne : c1 ≠ c2) (h : sanitizeCustomerId c1 = sanitizeCustomerId c2) :
    serveProfileKey c1 = serveProfileKey c2 ∧
    serveCacheKey segment channel c1 = serveCacheKey segment channel c2 := by
  unfold serveProfileKey serveCacheKey
  rw [h]
  exact ⟨rfl, rfl⟩

/-- Witness for C10 at the claim's example: `"A:1"` and `"A 1"` are distinct
but both sanitise to `"A_1"`, so they collide on both keys. -/
theorem sanitized_key_collision_witness :
    ("A:1" ≠ "A 1") ∧ sanitizeCustomerId "A:1" = sanitizeCustomerId "A 1" ∧
    serveProfileKey "A:1" = serveProfileKey "A 1" ∧
    serveCacheKey "mass" "ATM" "A:1" = serveCacheKey "mass" "ATM" "A 1" :=
  ⟨by decide, by decide,
   (sanitized_key_collision "A:1" "A 1" "mass" "ATM" (by decide) (by decide)).1,
   (sanitized_key_collision "A:1" "A 1" "mass" "ATM" (by decide) (by decide)).2⟩

/-- C9: for every prior state and every call, `recordImpression` returns
normally; on a KV error the stored profile is unchanged and nothing is
written; otherwise the stored profile afterwards contains the new
`{adId, now}` entry, every entry satisfies `now − timestamp ≤ 24h` (indeed
strictly less), `lastUpdated = now`, and the write is the single pipeline
`set` followed by `expire` with TTL 86,400 s. -/
theorem recordImpression_invariants (stored : Option UserProfile)
    (customerId adId : String) (now : Int) :
    recordImpression true stored customerId adId now = (stored, [], true) ∧
    (∃ p', recordImpression false stored customerId adId now =
        (some p',
         [KVOp.set (getUserProfileKey customerId) p',
          KVOp.expire (getUserProfileKey customerId) 86400], true) ∧
      ({ adId := adId, timestamp := now } : ImpressionRecord) ∈ p'.impressions ∧
      (∀ e ∈ p'.impressions, now - e.timestamp ≤ 86400 * 1000) ∧
      p'.lastUpdated = now) := by
  refine ⟨rfl, ?_⟩
  refine ⟨recordImpressionProfile (getUserProfile stored customerId now) adId now,
    rfl, ?_, ?_, rfl⟩
  · simp only [recordImpressionProfile, List.mem_filter, decide_eq_true_eq]
    refine ⟨by simp, by omega⟩
  · intro e he
    simp only [recordImpressionProfile, List.mem_filter] at he
    have h := of_decide_eq_true he.2
    omega

/-- Properties of the source's `reduce((max, imp) => Math.max(max, imp.timestamp), 0)`
fold, for an arbitrary initial value: the result dominates the initial value
and every element, and is either the initial value or some element's
timestamp. -/
theorem foldl_max_timestamp (l : List ImpressionRecord) (init : Int) :
    init ≤ l.foldl (fun m imp => max m imp.timestamp) init ∧
    (l.foldl (fun m imp => max m imp.timestamp) init = init ∨
      ∃ e ∈ l, l.foldl (fun m imp => max m imp.timestamp) init = e.timestamp) ∧
    (∀ e ∈ l, e.timestamp ≤ l.foldl (fun m imp => max m imp.timestamp) init) := by
  induction l generalizing init with
  | nil => simp
  | cons x xs ih =>
    obtain ⟨h1, h2, h3⟩ := ih (max init x.timestamp)
    simp only [List.foldl_cons]
    refine ⟨le_trans (le_max_left _ _) h1, ?_, ?_⟩
    · rcases h2 with h2 | ⟨e, he, h2⟩
      · rcases max_cases init x.timestamp with ⟨hm, _⟩ | ⟨hm, _⟩
        · exact Or.inl (by rw [h2, hm])
        · exact Or.inr ⟨x, List.mem_cons_self x xs, by rw [h2, hm]⟩
      · exact Or.inr ⟨e, List.mem_cons_of_mem _ he, h2⟩
    · intro e he
      rcases List.mem_cons.mp he with rfl | he
      · exact le_trans (le_max_right _ _) h1
      · exact h3 e he

/-- The exclusion test of the source agrees with the claim's exclusion
condition whenever `now` is at least one cooldown after the epoch (true of
any wall clock after 02:00 UTC on 1 Jan 1970; the guard `lastShown > 0` in
the source makes the two differ on profiles with non-positive timestamps
when `now` itself is within 2 h of the epoch). -/
theorem freqCapExcludes_iff (now : Int) (profile : UserProfile) (ad : AdDocument)
    (h : (7200000 : Int) ≤ now) :
    freqCapExcludes now profile ad = true ↔ specFreqExcluded now profile ad._id := by
  have hhist : specFreqHistory now profile ad._id =
      freqCapTodayImpressions now profile ad._id := rfl
  unfold specFreqExcluded
  rw [hhist]
  set H := freqCapTodayImpressions now profile ad._id with hH
  show (if (3 : ℕ) ≤ H.length then true
        else decide (0 < H.foldl (fun m imp => max m imp.timestamp) 0) &&
             decide (now - H.foldl (fun m imp => max m imp.timestamp) 0 < 7200000)) = true ↔
       3 ≤ H.length ∨ ∃ e ∈ H, now - e.timestamp < 2 * 3600 * 1000
  obtain ⟨-, hrep, hdom⟩ := foldl_max_timestamp H 0
  by_cases hc : 3 ≤ H.length
  · rw [if_pos hc]
    exact ⟨fun _ => Or.inl hc, fun _ => rfl⟩
  · rw [if_neg hc, Bool.and_eq_true, decide_eq_true_eq, decide_eq_true_eq]
    constructor
    · rintro ⟨hpos, hwithin⟩
      rcases hrep with hzero | ⟨e, he, heq⟩
      · omega
      · exact Or.inr ⟨e, he, by omega⟩
    · rintro (hlen | ⟨e, he, hyoung⟩)
      · omega
      · have hle := hdom e he
        constructor <;> omega

/-- C6: an ad survives the frequency-cap filter iff it is in the input and
the claim's condition fails: fewer than 3 impressions of it in the profile
within the last 24 h, and no such impression (in particular not the most
recent one) younger than 2 h.  The hypothesis `7200000 ≤ now` says the
clock reads at least one cooldown after the epoch. -/
theorem filterByFrequencyCap_eligible_iff (now : Int) (ads : List AdDocument)
    (profile : UserProfile) (ad : AdDocument) (h : (7200000 : Int) ≤ now) :
    ad ∈ (filterByFrequencyCap now ads profile).1 ↔
      ad ∈ ads ∧ ¬ specFreqExcluded now profile ad._id := by
  simp only [filterByFrequencyCap, List.mem_filter]
  rw [← freqCapExcludes_iff now profile ad h]
  simp

/-- A profile that saw ad `"A"` one hour before `now = 10^13` ms. -/
def cooldownProfile : UserProfile :=
  { customerId := "C1"
  , impressions := [{ adId := "A", timestamp := 9999996400000 }]
  , lastUpdated := 9999999999999 }

/-- The scorer's sample ad, renamed to `"A"`, for the frequency-cap witness. -/
def adFreqA : AdDocument := { adOne with _id := "A" }

/-- Witness for C6 at a concrete clock, profile and candidate list. -/
theorem filterByFrequencyCap_eligible_iff_witness :
    (7200000 : Int) ≤ 10000000000000 ∧
    (adFreqA ∈ (filterByFrequencyCap 10000000000000 [adFreqA] cooldownProfile).1 ↔
      adFreqA ∈ [adFreqA] ∧
        ¬ specFreqExcluded 10000000000000 cooldownProfile adFreqA._id) :=
  ⟨by decide,
   filterByFrequencyCap_eligible_iff 10000000000000 [adFreqA] cooldownProfile adFreqA
     (by decide)⟩

/-- C3 counterexample: the one bucket key the middleware builds for a
request from IP 1.2.3.4 to `/api/v1/ads/serve` — API key present or not —
is `ratelimit:1.2.3.4:/api/v1/ads/serve`.  It is not the claimed per-IP key
`ratelimit:ip:{ip}:{path}`, and no consulted key lies in the claimed
per-API-key namespace `ratelimit:apikey:...`: the second layer does not
exist. -/
theorem rateLimiter_layers_counterexample :
    rateLimitKey "1.2.3.4" "/api/v1/ads/serve" = "ratelimit:1.2.3.4:/api/v1/ads/serve" ∧
    rateLimitKey "1.2.3.4" "/api/v1/ads/serve" ≠ "ratelimit:ip:1.2.3.4:/api/v1/ads/serve" ∧
    rateLimiterBucketKeys "1.2.3.4" "/api/v1/ads/serve" (some "bank-key-a1b2c3d4") =
      ["ratelimit:1.2.3.4:/api/v1/ads/serve"] ∧
    ("ratelimit:apikey:".data.isPrefixOf
      "ratelimit:1.2.3.4:/api/v1/ads/serve".data) = false := by
  refine ⟨by decide, by decide, by decide, by decide⟩

/-- C3 amended: the rate limiter evaluates a single layer — a per-IP bucket
keyed `ratelimit:{ip}:{path}` with `windowSeconds = 60` and
`maxRequests = 100` — and its behaviour is independent of any API key on
the request (`RATE_LIMIT_TIERS` exists in the model layer but is never
consulted). -/
theorem rateLimiter_single_layer (ip path : String) (k1 k2 : Option String) :
    rateLimiterBucketKeys ip path k1 = ["ratelimit:" ++ ip ++ ":" ++ path] ∧
    rateLimiterBucketKeys ip path k1 = rateLimiterBucketKeys ip path k2 ∧
    TARGETING_CONFIG.rateLimit.windowSeconds = 60 ∧
    TARGETING_CONFIG.rateLimit.maxRequests = 100 :=
  ⟨rfl, rfl, rfl, rfl⟩

/-- Pruning removes nothing when every score exceeds the cut-off. -/
theorem zremrangebyscore_keep (b : Bucket) (hi : Int) (h : ∀ e ∈ b, hi < e.1) :
    zremrangebyscore b 0 hi = b := by
  unfold zremrangebyscore
  apply List.filter_eq_self.mpr
  intro e he
  have := h e he
  simp only [Bool.not_eq_eq_eq_not, Bool.not_true, Bool.and_eq_false_iff,
    decide_eq_false_iff_not, not_le]
  right
  omega

/-- `zadd` appends when the member is fresh. -/
theorem zadd_fresh (b : Bucket) (score : Int) (member : String)
    (h : ∀ e ∈ b, e.2 ≠ member) :
    zadd b score member = b ++ [(score, member)] := by
  unfold zadd
  rw [if_neg]
  simp only [List.any_eq_true, beq_iff_eq, not_exists, not_and]
  exact h

/-- One middleware pass over a bucket whose members are all fresh and all
inside the current window: the bucket grows by exactly the new member and
the decision is `rateLimitDecisionAt` of the new cardinality. -/
theorem rateLimiter_step_fresh (b0 : Bucket) (now : Int) (member : String)
    (hfresh : ∀ e ∈ b0, e.2 ≠ member)
    (hwin : ∀ e ∈ b0, now - 60000 < e.1) :
    rateLimiter b0 now member =
      (b0 ++ [(now, member)], rateLimitDecisionAt (b0.length + 1)) := by
  show rateLimiterStep 60 100 b0 now member = _
  unfold rateLimiterStep
  dsimp only
  have hprune : zremrangebyscore b0 0 (now - ((60 : ℕ) : Int) * 1000) = b0 := by
    apply zremrangebyscore_keep
    intro e he
    have := hwin e he
    omega
  rw [hprune, zadd_fresh b0 now member hfresh]
  unfold zcard rateLimitDecisionAt
  rw [List.length_append, List.length_singleton]
  split_ifs <;> rfl

/-- The run lemma behind C7, generalised over an initial bucket already
holding earlier, still-in-window, distinct members. -/
theorem rateLimiterRun_go (reqs : List (Int × String)) (b0 : Bucket)
    (acc : List RateLimitDecision)
    (hfresh : ∀ e ∈ b0, ∀ r ∈ reqs, e.2 ≠ r.2)
    (hdistinct : (reqs.map Prod.snd).Pairwise (fun a b => a ≠ b))
    (hb0 : ∀ e ∈ b0, ∀ r ∈ reqs, r.1 - 60000 < e.1)
    (hreqs : ∀ r ∈ reqs, ∀ r' ∈ reqs, r.1 - 60000 < r'.1) :
    reqs.foldl
      (fun acc r =>
        let s := rateLimiter acc.1 r.1 r.2
        (s.1, acc.2 ++ [s.2])) (b0, acc) =
    (b0 ++ reqs,
     acc ++ (List.range reqs.length).map
       (fun i => rateLimitDecisionAt (b0.length + i + 1))) := by
  induction reqs generalizing b0 acc with
  | nil => simp
  | cons r rest ih =>
    rw [List.foldl_cons]
    have hstep : rateLimiter b0 r.1 r.2 =
        (b0 ++ [(r.1, r.2)], rateLimitDecisionAt (b0.length + 1)) := by
      apply rateLimiter_step_fresh
      · intro e he
        exact hfresh e he r (List.mem_cons_self _ _)
      · intro e he
        exact hb0 e he r (List.mem_cons_self _ _)
    dsimp only
    rw [hstep]
    dsimp only
    have hpair : ∀ b ∈ rest.map Prod.snd, r.2 ≠ b :=
      (List.pairwise_cons.mp (by simpa using hdistinct)).1
    rw [ih (b0 ++ [(r.1, r.2)]) (acc ++ [rateLimitDecisionAt (b0.length + 1)])]
    · congr 1
      · rw [List.append_assoc, List.singleton_append]
      · rw [List.append_assoc, List.singleton_append, List.length_cons,
          List.range_succ_eq_map, List.map_cons, List.map_map,
          List.length_append, List.length_singleton]
        congr 2
        · congr 1
          funext i
          simp only [Function.comp]
          congr 1
          omega
    · intro e he r' hr'
      rcases List.mem_append.mp he with he | he
      · exact hfresh e he r' (List.mem_cons_of_mem _ hr')
      · rcases List.mem_singleton.mp he with rfl
        exact hpair r'.2 (List.mem_map_of_mem Prod.snd hr')
    · exact (List.pairwise_cons.mp (by simpa using hdistinct)).2
    · intro e he r' hr'
      rcases List.mem_append.mp he with he | he
      · exact hb0 e he r' (List.mem_cons_of_mem _ hr')
      · rcases List.mem_singleton.mp he with rfl
        exact hreqs r' (List.mem_cons_of_mem _ hr') r (List.mem_cons_self _ _)
    · intro a ha a' ha'
      exact hreqs a (List.mem_cons_of_mem _ ha) a' (List.mem_cons_of_mem _ ha')

/-- C7: over any sequence of requests to one bucket whose timestamps all lie
within a single window of each other and whose members are distinct,
starting from an empty bucket, the bucket after the k-th request holds
exactly the k requests, and the k-th decision is exactly
`rateLimitDecisionAt k`: admission with `X-RateLimit-Remaining = 100 − k`
while `k ≤ maxRequests = 100` (so post-insert cardinality exactly 100 is
still admitted, with 0 remaining), and denial with status 429,
`Retry-After = 60` and 0 remaining as soon as `k > 100`. -/
theorem rateLimiter_window_invariant (reqs : List (Int × String))
    (hdistinct : (reqs.map Prod.snd).Pairwise (fun a b => a ≠ b))
    (hwindow : ∀ r ∈ reqs, ∀ r' ∈ reqs, r.1 - 60000 < r'.1) :
    rateLimiterRun reqs =
      (reqs, (List.range reqs.length).map (fun i => rateLimitDecisionAt (i + 1))) := by
  unfold rateLimiterRun
  rw [rateLimiterRun_go reqs [] [] (by simp) hdistinct (by simp) hwindow]
  simp

/-- Witness for C7: three same-millisecond requests with distinct members
from an empty bucket. -/
theorem rateLimiter_window_invariant_witness :
    (([(0, "a"), (0, "b"), (0, "c")] : List (Int × String)).map Prod.snd).Pairwise
        (fun a b => a ≠ b) ∧
    (∀ r ∈ ([(0, "a"), (0, "b"), (0, "c")] : List (Int × String)),
      ∀ r' ∈ ([(0, "a"), (0, "b"), (0, "c")] : List (Int × String)),
        r.1 - 60000 < r'.1) ∧
    rateLimiterRun [(0, "a"), (0, "b"), (0, "c")] =
      ([(0, "a"), (0, "b"), (0, "c")],
       (List.range 3).map (fun i => rateLimitDecisionAt (i + 1))) :=
  ⟨by decide, by decide,
   rateLimiter_window_invariant [(0, "a"), (0, "b"), (0, "c")] (by decide) (by decide)⟩

/-- Filtering one score level through an `orderedInsert`: the inserted
element lands in front of every stored element of its own score (all
elements passed over have strictly greater scores). -/
theorem filter_score_orderedInsert (c : ℚ) (x : ScoredAd) (l : List ScoredAd) :
    (l.orderedInsert scoredGE x).filter (fun s => s.score == c) =
      if x.score == c then x :: l.filter (fun s => s.score == c)
      else l.filter (fun s => s.score == c) := by
  induction l with
  | nil => simp [List.orderedInsert, List.filter_singleton]
  | cons y ys ih =>
    rw [List.orderedInsert]
    by_cases hxy : scoredGE x y
    · rw [if_pos hxy, List.filter_cons]
    · rw [if_neg hxy, List.filter_cons, ih, List.filter_cons]
      have hlt : x.score < y.score := lt_of_not_le hxy
      by_cases hx : x.score = c <;> by_cases hy : y.score = c
      · exact absurd (hx.trans hy.symm) (ne_of_lt hlt)
      · simp [hx, hy]
      · simp [hx, hy]
      · simp [hx, hy]

/-- Stability of the ranking step: within each score level the sorted list
keeps the input order. -/
theorem sortScored_stable (l : List ScoredAd) (c : ℚ) :
    (sortScored l).filter (fun s => s.score == c) =
      l.filter (fun s => s.score == c) := by
  induction l with
  | nil => rfl
  | cons x xs ih =>
    unfold sortScored at ih ⊢
    rw [List.insertionSort, filter_score_orderedInsert, ih, List.filter_cons]

/-- C4 counterexample: `adTieA` (priority 1) and `adTieB` (priority 2) tie
at composite score 11/20, yet with `adTieA` first in the candidate list the
ranking of `serveAds` returns `adTieA` as the winner — the stable sort by
score alone keeps input order on ties instead of breaking them by higher
priority (or by startDate or adId) as the claim states. -/
theorem serveAds_tiebreak_counterexample :
    (scoreAdsWith 30 1700000000000 [adTieA, adTieB]).map (fun s => s.score) =
      [11/20, 11/20] ∧
    adTieA.priority < adTieB.priority ∧
    (sortScored (scoreAdsWith 30 1700000000000 [adTieA, adTieB])).head?.map
      (fun s => s.ad._id) = some "A" := by
  have hscore : scoreAdsWith 30 1700000000000 [adTieA, adTieB] =
      [{ ad := adTieA, score := 11/20
       , breakdown := { priorityScore := 1/2, ctrScore := 7/10
                      , recencyScore := 1, freshnessScore := 0 } },
       { ad := adTieB, score := 11/20
       , breakdown := { priorityScore := 1, ctrScore := 0
                      , recencyScore := 1, freshnessScore := 0 } }] := by
    simp only [scoreAdsWith, adTieA, adTieB, TARGETING_CONFIG, jsOr, mathMaxList,
      calculateCtr, List.map, List.foldl, List.cons_append, List.nil_append]
    norm_num [min_def]
  refine ⟨?_, ?_, ?_⟩
  · rw [hscore]
    rfl
  · norm_num [adTieA, adTieB]
  · rw [hscore]
    unfold sortScored
    simp [List.insertionSort, List.orderedInsert, scoredGE, adTieA]

/-- C4 amended: the ranking sorts by descending composite score only — the
result is sorted under `scoredGE`, is a permutation of its input, and within
each score level keeps the input order (stability).  Determinism therefore
holds for identical candidate *lists* (same elements in the same order),
but there is no tie-break by priority, startDate or adId. -/
theorem sortScored_amended (l : List ScoredAd) (c : ℚ) :
    (sortScored l).Sorted scoredGE ∧
    (sortScored l).Perm l ∧
    (sortScored l).filter (fun s => s.score == c) =
      l.filter (fun s => s.score == c) :=
  ⟨List.sorted_insertionSort scoredGE l, List.perm_insertionSort scoredGE l,
   sortScored_stable l c⟩

/-- Witness for C8 at the claimed boundary hours 12, 21 and 6. -/
theorem getCurrentTimeSlot_matches_spec_witness :
    (12 < 24 ∧ getCurrentTimeSlot 12 = timeSlotSpec 12) ∧
    (21 < 24 ∧ getCurrentTimeSlot 21 = timeSlotSpec 21) ∧
    (6 < 24 ∧ getCurrentTimeSlot 6 = timeSlotSpec 6) :=
  ⟨⟨by decide, getCurrentTimeSlot_matches_spec 12 (by decide)⟩,
   ⟨by decide, getCurrentTimeSlot_matches_spec 21 (by decide)⟩,
   ⟨by decide, getCurrentTimeSlot_matches_spec 6 (by decide)⟩⟩

end BankAds
